import Mathlib

/-!
# Verification of the Page controller (puppeteer-custom)

A shallow embedding of the Page controller described by the repository's
specification.  The repository ships only the declaration surface
(`src/lib/esm/puppeteer/common/Page.d.ts`) of the controller; the
implementation file itself is not under `src/`, so every behavioural
definition below is modelled from the spec, faithful to its words, and
its doc comment says so.  Type-level facts (signatures, nullability of
results) come from `Page.d.ts`.
-/

namespace Puppeteer

/-- Serialized JSON-like values exchanged over the control protocol
(`Page.d.ts` marshals `SerializableOrJSHandle` arguments and JSON
results). -/
inductive JSONValue where
  | null
  | bool (b : Bool)
  | num (n : Int)
  | str (s : String)
  | arr (xs : List JSONValue)
deriving Repr

/-- The error taxonomy of spec section 7: timeout, protocol error,
navigation error, disconnect/crash, usage error, remote execution error;
`elementNotFound` is the element-not-found error that `$eval` surfaces. -/
inductive PageError where
  | timeoutError
  | protocolError (msg : String)
  | navigationError
  | disconnected
  | usageError (msg : String)
  | remoteError (msg : String)
  | elementNotFound (selector : String)
deriving Repr, DecidableEq

/-! ## Generic wait coordination (spec section 4.4, claims C3 and C4)

`Page.d.ts` declares `WaitTimeoutOptions` (lines 57..67): "Maximum wait
time in milliseconds, defaults to 30 seconds, pass `0` to disable the
timeout."  The implementation of the race is not under `src/`. -/

/-- Status of one wait registration: still pending, resolved by its
predicate, rejected by the timeout timer, or rejected by disconnect. -/
inductive WaitStatus where
  | pending
  | resolved
  | rejectedTimeout
  | rejectedDisconnect
deriving Repr, DecidableEq

/-- One wait registration: its status together with whether its
listeners and timer are still installed (`registered`). -/
structure WaitState where
  status : WaitStatus
  registered : Bool
deriving Repr, DecidableEq

/-- The freshly created registration of a wait-style operation. -/
def WaitState.init : WaitState := ⟨WaitStatus.pending, true⟩

/-- Modelled from the spec: the Page implementation behind
`WaitTimeoutOptions` is not under `src/`.  Spec section 4.2: every
wait-style operation registers a completion predicate and a timeout
timer (`0` disables it) and resolves with whichever fires first; the
other registration is torn down immediately upon resolution.  Spec
section 5: disconnect is a broadcast cancellation.  One discrete tick at
time `now`: a settled wait never changes again (its registration was
already torn down); a pending wait first observes disconnect, then its
predicate, then the timer (which fires only when `timeout ≠ 0` and
`timeout ≤ now`). -/
def waitTick (timeout : Nat) (fires disc : Bool) (now : Nat) (w : WaitState) : WaitState :=
  if w.status ≠ WaitStatus.pending then w
  else if disc then ⟨WaitStatus.rejectedDisconnect, false⟩
  else if fires then ⟨WaitStatus.resolved, false⟩
  else if timeout ≠ 0 ∧ timeout ≤ now then ⟨WaitStatus.rejectedTimeout, false⟩
  else w

/-- Modelled from the spec: run a wait registration through the first
`n` ticks (times `0, 1, …, n-1`), where `fires k` says whether the
completion predicate is satisfied at time `k` and `disc k` whether the
page disconnected at time `k`. -/
def runWait (timeout : Nat) (fires disc : Nat → Bool) : Nat → WaitState
  | 0 => WaitState.init
  | n + 1 => waitTick timeout (fires n) (disc n) n (runWait timeout fires disc n)

/-! ## Page state (`Page.d.ts` lines 325..343, spec section 3)

The `Page` class declares the private fields `_closed`, `_pageBindings`,
`_fileChooserInterceptors` among others; pending wait registrations are
tracked so that close can broadcast-cancel them (spec section 5). -/

/-- An exposed-binding handler.  Spec section 4.4: the controller
invokes the handler, awaits its result (sync or asynchronous), and
serializes the return value or error; the model therefore sees the
final awaited outcome — a value or an error message. -/
def Handler := List JSONValue → Except String JSONValue

/-- The page-level mutable state the claims touch: the closed flag
(`_closed`), the exposed-binding registrations (`_pageBindings`, an
association of unique names to handlers), the pending file-chooser
interceptors in FIFO order with the oldest first
(`_fileChooserInterceptors`), and the identifiers of the wait
registrations currently pending. -/
structure PageState where
  _closed : Bool
  _pageBindings : List (String × Handler)
  _fileChooserInterceptors : List Nat
  pendingWaits : List Nat

/-- A protocol command sent over the session (spec section 6: the
transport exposes `send(command, params)`). -/
inductive Command where
  | captureScreenshot
  | printToPDF
  | navigateHistory (delta : Int)
  | queryCommand (selector : String)
  | genericCommand (name : String)
deriving Repr, DecidableEq

/-! ## Exposed bindings (`exposeFunction` at `Page.d.ts` line 656,
`_onBindingCalled` at line 665, spec section 4.4) -/

/-- The usage-error message for a duplicate binding name. -/
def bindingExistsMessage (name : String) : String :=
  "Failed to add page binding with name " ++ name ++ ": a binding with that name already exists"

/-- Modelled from the spec: the implementation of
`exposeFunction(name, puppeteerFunction)` is not under `src/`.  Spec
sections 4.4 and 3: it registers a page-visible call-back under a name
unique per page; re-registering an already-bound name must fail without
side effects.  Duplicate detection is a usage error, failing before any
protocol I/O (spec section 7e). -/
def exposeFunction (st : PageState) (name : String) (handler : Handler) :
    PageState × Except PageError Unit :=
  if (st._pageBindings.lookup name).isSome then
    (st, Except.error (PageError.usageError (bindingExistsMessage name)))
  else
    ({ st with _pageBindings := st._pageBindings ++ [(name, handler)] }, Except.ok ())

/-- The observable outcome of one binding call-back: the arguments the
registered handler was invoked with, and the reply serialized back to
the page (the handler's return value, or its error). -/
structure BindingCallReply where
  handlerArgs : List JSONValue
  reply : Except String JSONValue

/-- Modelled from the spec: the implementation of `_onBindingCalled` is
not under `src/`.  Spec section 4.4: an in-page invocation of a bound
name triggers a notification carrying the name and serialized
arguments; the controller invokes the registered handler with them,
awaits its result, and sends the serialized return value (or error)
back so the in-page promise resolves or rejects accordingly.  `none`
means the name is not a registered binding. -/
def onBindingCalled (st : PageState) (name : String) (args : List JSONValue) :
    Option BindingCallReply :=
  (st._pageBindings.lookup name).map (fun h => ⟨args, h args⟩)

/-! ## File-chooser interception (`waitForFileChooser` at `Page.d.ts`
lines 349..358, `_fileChooserInterceptors` at line 342, spec
section 4.6) -/

/-- Modelled from the spec: the implementation of `waitForFileChooser`
is not under `src/`.  It registers one more pending interceptor; new
registrations join at the tail so the head stays the oldest (FIFO). -/
def waitForFileChooser (st : PageState) (interceptor : Nat) : PageState :=
  { st with _fileChooserInterceptors := st._fileChooserInterceptors ++ [interceptor] }

/-- Modelled from the spec: the implementation of `_onFileChooser` is
not under `src/`.  Spec section 4.6: when the file-chooser-opened
notification arrives, the controller matches it against the oldest
pending interceptor (FIFO), resolves that interceptor's future with a
handle representing the chooser, and removes it from the pending set;
with no pending interceptor the event is dropped — no crash, no public
surfacing.  The second component reports which interceptor was resolved
and with which chooser handle (`none`: the notification was dropped). -/
def onFileChooser (st : PageState) (chooser : Nat) :
    PageState × Option (Nat × Nat) :=
  match st._fileChooserInterceptors with
  | [] => (st, none)
  | i :: rest => ({ st with _fileChooserInterceptors := rest }, some (i, chooser))

/-! ## Close and fail-fast (`close` at `Page.d.ts` lines 754..757,
`_closed` at line 325, spec section 5) -/

/-- Modelled from the spec: the implementation of `close()` is not
under `src/`.  Spec section 5: page close is a broadcast cancellation —
every currently pending wait is immediately rejected with the
disconnect/closed error and removed.  Returns the closed state together
with the rejection delivered to each wait that was pending. -/
def close (st : PageState) : PageState × List (Nat × PageError) :=
  ({ st with _closed := true, pendingWaits := [], _fileChooserInterceptors := [] },
   st.pendingWaits.map (fun w => (w, PageError.disconnected)))

/-- Modelled from the spec: the guard every public operation passes
through is not under `src/`.  Spec sections 5 and 7d: after close, new
operations fail fast with the closed/disconnect error without
attempting protocol I/O; on an open page the operation's protocol
commands go out.  Returns the commands actually issued and the
immediate outcome. -/
def issueOperation (st : PageState) (cmds : List Command) :
    List Command × Except PageError Unit :=
  if st._closed then ([], Except.error PageError.disconnected)
  else (cmds, Except.ok ())

/-! ## Selector queries (`$` at `Page.d.ts` lines 451..462, `$eval` at
lines 514..572, spec section 4.3) -/

/-- A document, modelled as the association of selectors to the ids of
their first matching elements; `querySelector` returns the first match
or `none`, as `document.querySelector` returns an element or `null`. -/
def Dom := List (String × Nat)

/-- The `document.querySelector` primitive both `$` and `$eval` run
(spec section 4.3: element-scoped variants first resolve a selector). -/
def querySelector (dom : Dom) (selector : String) : Option Nat :=
  (List.find? (fun p => p.1 == selector) dom).map (fun p => p.2)

/-- Modelled from the spec: the implementation of `$(selector)` is not
under `src/`.  Its declaration (`Page.d.ts` lines 451..462) types it
`Promise<ElementHandle | null>` and documents: runs
`document.querySelector` within the page; if no element matches the
selector, the return value resolves to `null`.  It does not reject on a
non-matching selector. -/
def pageQuery (dom : Dom) (selector : String) : Except PageError (Option Nat) :=
  Except.ok (querySelector dom selector)

/-- Modelled from the spec: the implementation of
`$eval(selector, pageFunction)` is not under `src/`.  Its declaration
(`Page.d.ts` lines 514..572) documents: runs `document.querySelector`
and passes the result as the first argument to `pageFunction`; if no
element is found matching the selector, the method will throw an
error. -/
def pageEvalOnSelector (dom : Dom) (selector : String) (fn : Nat → JSONValue) :
    Except PageError JSONValue :=
  match querySelector dom selector with
  | none => Except.error (PageError.elementNotFound selector)
  | some el => Except.ok (fn el)

/-! ## History navigation (`goBack`/`goForward` at `Page.d.ts` lines
683..685, spec section 4.2) -/

/-- The browsing history of the page: the index of the current entry
and the list of entry ids. -/
structure NavigationHistory where
  currentIndex : Nat
  entries : List Nat
deriving Repr, DecidableEq

/-- Modelled from the spec: the shared `_go` implementation behind
`goBack`/`goForward` is not under `src/`.  Spec section 4.2: they first
issue a history-navigation command and only then await the resulting
lifecycle condition, tolerating the case where no navigation actually
occurs (history boundary) by resolving with a null result instead of
failing.  Returns the issued command together with the settled result:
the target entry's response, or `none` (the null result) at a history
boundary. -/
def go (hist : NavigationHistory) (delta : Int) :
    List Command × Except PageError (Option Nat) :=
  let target : Int := (hist.currentIndex : Int) + delta
  ([Command.navigateHistory delta],
   if target < 0 then Except.ok none
   else Except.ok (hist.entries.get? target.toNat))

/-- `goBack()`: navigate one entry back in history (`Page.d.ts` line
683, typed `Promise<HTTPResponse | null>`). -/
def goBack (hist : NavigationHistory) : List Command × Except PageError (Option Nat) :=
  go hist (-1)

/-- `goForward()`: navigate one entry forward in history (`Page.d.ts`
line 684, typed `Promise<HTTPResponse | null>`). -/
def goForward (hist : NavigationHistory) : List Command × Except PageError (Option Nat) :=
  go hist 1

/-! ## Exclusive capture queue (`_screenshotTaskQueue` at `Page.d.ts`
line 340, `screenshot` at line 750, `pdf` at line 752, spec
section 4.5)

Both `screenshot()` and `pdf()` post their capture task to the one
shared `_screenshotTaskQueue`.  Tasks are identified by numbers; the
queue state below tracks them through their life. -/

/-- State of the exclusive capture task queue: `pending` holds the
queued tasks in FIFO order (head next to run), `inFlight` the capture
commands currently outstanding against the remote session, and `sent`
the remote capture invocations in the order they were issued. -/
structure CaptureQueueState where
  pending : List Nat
  inFlight : List Nat
  sent : List Nat
deriving Repr, DecidableEq

/-- Modelled from the spec: the task-queue implementation behind
`_screenshotTaskQueue` is not under `src/`.  Spec section 4.5: the
controller maintains a FIFO task queue guaranteeing at most one capture
command is outstanding against the remote session at a time.  `start`
dispatches the head of the queue only when nothing is in flight,
recording its remote invocation; `finish` completes an outstanding
command — success or failure alike, since errors inside one task do not
poison the queue. -/
inductive CaptureStep : CaptureQueueState → CaptureQueueState → Prop where
  | start (t : Nat) (rest sent : List Nat) :
      CaptureStep ⟨t :: rest, [], sent⟩ ⟨rest, [t], sent ++ [t]⟩
  | finish (t : Nat) (pend fl1 fl2 sent : List Nat) :
      CaptureStep ⟨pend, fl1 ++ t :: fl2, sent⟩ ⟨pend, fl1 ++ fl2, sent⟩

/-- The queue states reachable by any interleaving of task starts and
completions. -/
def CaptureReach : CaptureQueueState → CaptureQueueState → Prop :=
  Relation.ReflTransGen CaptureStep

/-- The queue right after a batch of capture calls enqueued the tasks
`q` in call order, before any has run. -/
def captureInit (q : List Nat) : CaptureQueueState := ⟨q, [], []⟩

/-- The queue invariant: the tasks not yet dispatched trail the ones
already sent in the original call order, and at most one capture
command is in flight. -/
def CaptureInv (q : List Nat) (s : CaptureQueueState) : Prop :=
  s.sent ++ s.pending = q ∧ s.inFlight.length ≤ 1

/-! ## Helper lemmas -/

/-- A settled wait (torn down) is a fixed point of every later tick. -/
theorem waitTick_settled (timeout : Nat) (f d : Bool) (now : Nat) (w : WaitState)
    (h : w.status ≠ WaitStatus.pending) :
    waitTick timeout f d now w = w := by
  simp [waitTick, h]

/-- With the predicate never firing and no disconnect, the wait is still
pending strictly before the deadline. -/
theorem runWait_pending_before (timeout : Nat) (fires disc : Nat → Bool)
    (hf : ∀ k, fires k = false) (hd : ∀ k, disc k = false) :
    ∀ n, n ≤ timeout → runWait timeout fires disc n = WaitState.init := by
  intro n
  induction n with
  | zero => intro _; rfl
  | succ m ih =>
    intro hle
    have hm : m ≤ timeout := Nat.le_of_succ_le hle
    have hlt : ¬ timeout ≤ m := Nat.not_le.mpr (Nat.lt_of_succ_le hle)
    simp [runWait, ih hm, waitTick, WaitState.init, hf m, hd m, hlt]

/-- Once settled, a wait keeps its state at every later time. -/
theorem runWait_settled_stable (timeout : Nat) (fires disc : Nat → Bool) (n : Nat)
    (h : (runWait timeout fires disc n).status ≠ WaitStatus.pending) :
    ∀ m, n ≤ m → runWait timeout fires disc m = runWait timeout fires disc n := by
  intro m hm
  induction m with
  | zero =>
    have : n = 0 := Nat.le_zero.mp hm
    simp [this]
  | succ k ih =>
    rcases Nat.lt_or_ge n (k + 1) with hlt | hge
    · have hnk : n ≤ k := Nat.lt_succ_iff.mp hlt
      have hk := ih hnk
      simp only [runWait]
      rw [hk, waitTick_settled _ _ _ _ _ h]
    · have : n = k + 1 := Nat.le_antisymm hm hge
      simp [this]

/-- Looking a key up in a concatenation skips a block that does not
contain it. -/
theorem lookup_append_of_none {α β : Type} [BEq α] (l1 l2 : List (α × β)) (a : α)
    (h : List.lookup a l1 = none) :
    List.lookup a (l1 ++ l2) = List.lookup a l2 := by
  induction l1 with
  | nil => rfl
  | cons p rest ih =>
    obtain ⟨k, v⟩ := p
    cases hpa : a == k with
    | true => simp [List.lookup, hpa] at h
    | false =>
      simp only [List.lookup, hpa] at h
      simpa [List.lookup, hpa] using ih h

/-- One step preserves the capture-queue invariant. -/
theorem captureStep_inv {q : List Nat} {s s' : CaptureQueueState}
    (h : CaptureInv q s) (hs : CaptureStep s s') : CaptureInv q s' := by
  obtain ⟨h1, h2⟩ := h
  cases hs with
  | start t rest sent =>
    refine ⟨?_, by simp⟩
    simpa using h1
  | finish t pend fl1 fl2 sent =>
    refine ⟨h1, ?_⟩
    simp only [CaptureQueueState.inFlight, List.length_append] at h2 ⊢
    simp only [List.length_cons] at h2
    omega

/-- Every state reachable from the initial queue satisfies the
invariant. -/
theorem captureReach_inv {q : List Nat} {s : CaptureQueueState}
    (h : CaptureReach (captureInit q) s) : CaptureInv q s := by
  induction h with
  | refl => exact ⟨by simp [captureInit], by simp [captureInit]⟩
  | tail _ hstep ih => exact captureStep_inv ih hstep

/-! ## The claims -/

/-- C1: at most one capture operation (screenshot or PDF) is in flight
against the remote session at any instant, and capture requests run
their remote invocations in FIFO call order: with two back-to-back
screenshot calls enqueuing tasks `a` then `b`, every reachable queue
state keeps at most one command in flight and has sent nothing, only
`a`, or `a` then `b` — never `b` before `a`. -/
theorem capture_serializes_in_call_order (a b : Nat) (s : CaptureQueueState)
    (h : CaptureReach (captureInit [a, b]) s) :
    s.inFlight.length ≤ 1
    ∧ (s.sent = [] ∨ s.sent = [a] ∨ s.sent = [a, b]) := by
  obtain ⟨h1, h2⟩ := captureReach_inv h
  refine ⟨h2, ?_⟩
  obtain ⟨pend, fl, snt⟩ := s
  simp only [CaptureQueueState.sent, CaptureQueueState.pending] at h1 ⊢
  rcases snt with _ | ⟨x, snt⟩
  · exact Or.inl rfl
  rcases snt with _ | ⟨y, snt⟩
  · simp only [List.cons_append, List.nil_append, List.cons.injEq] at h1
    exact Or.inr (Or.inl (by rw [h1.1]))
  rcases snt with _ | ⟨z, snt⟩
  · simp only [List.cons_append, List.nil_append, List.cons.injEq] at h1
    exact Or.inr (Or.inr (by rw [h1.1, h1.2.1]))
  · exfalso
    have := congrArg List.length h1
    simp [List.length_append] at this

/-- Witness for C1: the reachable state right after the first of the
two queued screenshot tasks was dispatched. -/
theorem capture_serializes_in_call_order_witness :
    (CaptureQueueState.mk [1] [0] [0]).inFlight.length ≤ 1
    ∧ ((CaptureQueueState.mk [1] [0] [0]).sent = []
       ∨ (CaptureQueueState.mk [1] [0] [0]).sent = [0]
       ∨ (CaptureQueueState.mk [1] [0] [0]).sent = [0, 1]) :=
  capture_serializes_in_call_order 0 1 (CaptureQueueState.mk [1] [0] [0])
    (Relation.ReflTransGen.single (CaptureStep.start 0 [1] []))

/-- C2: after close() completes, every newly issued public operation
rejects immediately with the closed/disconnect error and issues no
protocol command, and every wait that was pending at close time is
rejected with that same error class. -/
theorem close_rejects_everything (st : PageState) (cmds : List Command) :
    issueOperation (close st).1 cmds = ([], Except.error PageError.disconnected)
    ∧ ∀ w, w ∈ st.pendingWaits → (w, PageError.disconnected) ∈ (close st).2 := by
  constructor
  · simp [issueOperation, close]
  · intro w hw
    exact List.mem_map.mpr ⟨w, hw, rfl⟩

/-- Witness for C2: closing a page with one pending wait. -/
theorem close_rejects_everything_witness :
    issueOperation (close (PageState.mk false [] [] [5])).1 [Command.captureScreenshot]
      = ([], Except.error PageError.disconnected)
    ∧ (5, PageError.disconnected) ∈ (close (PageState.mk false [] [] [5])).2 :=
  ⟨(close_rejects_everything (PageState.mk false [] [] [5]) [Command.captureScreenshot]).1,
   (close_rejects_everything (PageState.mk false [] [] [5]) [Command.captureScreenshot]).2
     5 (by simp)⟩

/-- C3: for every timeout `t > 0`, a wait whose completion predicate
never becomes true (and with no disconnect) rejects with the
timeout-specific error once time `t` is processed, its registration
(listeners and timer) is torn down at that point, and at every later
time the wait is still in that rejected state — it never resolves after
the rejection. -/
theorem wait_timeout_rejects_within (t : Nat) (fires disc : Nat → Bool)
    (ht : 0 < t) (hf : ∀ k, fires k = false) (hd : ∀ k, disc k = false) :
    (runWait t fires disc (t + 1)).status = WaitStatus.rejectedTimeout
    ∧ (runWait t fires disc (t + 1)).registered = false
    ∧ ∀ m, t + 1 ≤ m →
        (runWait t fires disc m).status = WaitStatus.rejectedTimeout := by
  have hpend := runWait_pending_before t fires disc hf hd t (Nat.le_refl t)
  have htne : t ≠ 0 := Nat.pos_iff_ne_zero.mp ht
  have hstep : runWait t fires disc (t + 1)
      = ⟨WaitStatus.rejectedTimeout, false⟩ := by
    simp [runWait, hpend, waitTick, WaitState.init, hf t, hd t, htne]
  refine ⟨by rw [hstep], by rw [hstep], ?_⟩
  intro m hm
  rw [runWait_settled_stable t fires disc (t + 1) (by rw [hstep]; simp) m hm, hstep]

/-- Witness for C3: a two-millisecond wait with a predicate that never
fires is rejected by the timer at time 2 and stays rejected at time 5. -/
theorem wait_timeout_rejects_within_witness :
    (runWait 2 (fun _ => false) (fun _ => false) 3).status = WaitStatus.rejectedTimeout
    ∧ (runWait 2 (fun _ => false) (fun _ => false) 3).registered = false
    ∧ (runWait 2 (fun _ => false) (fun _ => false) 5).status = WaitStatus.rejectedTimeout := by
  have h := wait_timeout_rejects_within 2 (fun _ => false) (fun _ => false)
    (by decide) (fun _ => rfl) (fun _ => rfl)
  exact ⟨h.1, h.2.1, h.2.2 5 (by decide)⟩

/-- C4: passing timeout `0` disables the timer entirely: the wait never
rejects with a timeout error whatever happens; it remains pending (with
its registration installed) as long as its predicate has not fired and
the page has not disconnected; and when the predicate fires on a
pending wait it resolves. -/
theorem wait_timeout_zero_disables (fires disc : Nat → Bool) :
    (∀ n, (runWait 0 fires disc n).status ≠ WaitStatus.rejectedTimeout)
    ∧ (∀ n, (∀ k, k < n → fires k = false ∧ disc k = false) →
        runWait 0 fires disc n = WaitState.init)
    ∧ (∀ n, (runWait 0 fires disc n).status = WaitStatus.pending →
        disc n = false → fires n = true →
        (runWait 0 fires disc (n + 1)).status = WaitStatus.resolved) := by
  refine ⟨?_, ?_, ?_⟩
  · intro n
    induction n with
    | zero => simp [runWait, WaitState.init]
    | succ m ih =>
      simp only [runWait, waitTick]
      split
      · exact ih
      · split
        · simp
        · split
          · simp
          · split
            · next hcond => exact absurd hcond.1 (by simp)
            · exact ih
  · intro n
    induction n with
    | zero => intro _; rfl
    | succ m ih =>
      intro hk
      have hm : ∀ k, k < m → fires k = false ∧ disc k = false :=
        fun k hlt => hk k (Nat.lt_succ_of_lt hlt)
      simp [runWait, ih hm, waitTick, WaitState.init,
        (hk m (Nat.lt_succ_self m)).1, (hk m (Nat.lt_succ_self m)).2]
  · intro n hp hdisc hfire
    simp [runWait, waitTick, hp, hdisc, hfire]

/-- Witness for C4: with timeout `0` and nothing firing, the wait is
untouched at time 5 and not timeout-rejected; it resolves at the tick
where the predicate first fires. -/
theorem wait_timeout_zero_disables_witness :
    (runWait 0 (fun _ => false) (fun _ => false) 5).status ≠ WaitStatus.rejectedTimeout
    ∧ runWait 0 (fun _ => false) (fun _ => false) 5 = WaitState.init
    ∧ (runWait 0 (fun k => k == 5) (fun _ => false) 6).status = WaitStatus.resolved := by
  refine ⟨(wait_timeout_zero_disables (fun _ => false) (fun _ => false)).1 5,
    (wait_timeout_zero_disables (fun _ => false) (fun _ => false)).2.1 5
      (fun k _ => ⟨rfl, rfl⟩),
    (wait_timeout_zero_disables (fun k => k == 5) (fun _ => false)).2.2 5 ?_ rfl (by decide)⟩
  have := (wait_timeout_zero_disables (fun k => k == 5) (fun _ => false)).2.1 5
    (fun k hk => ⟨by simp [Nat.ne_of_lt hk], rfl⟩)
  rw [this]
  rfl

/-- C5: a second exposeFunction call with an already-registered name
fails with the duplicate-name usage error, and the failure has no side
effects: the page state is unchanged and the first registration is
still the one the name resolves to. -/
theorem exposeFunction_duplicate_fails (st : PageState) (name : String)
    (h h2 : Handler) (hreg : st._pageBindings.lookup name = some h) :
    (exposeFunction st name h2).2
      = Except.error (PageError.usageError (bindingExistsMessage name))
    ∧ (exposeFunction st name h2).1 = st
    ∧ ((exposeFunction st name h2).1)._pageBindings.lookup name = some h := by
  have hsome : (st._pageBindings.lookup name).isSome = true := by rw [hreg]; rfl
  refine ⟨?_, ?_, ?_⟩ <;> simp [exposeFunction, hsome, hreg]

/-- Witness for C5: re-registering the bound name foo fails and leaves
the original handler in place. -/
theorem exposeFunction_duplicate_fails_witness :
    (exposeFunction
        (PageState.mk false [("foo", fun _ => Except.ok JSONValue.null)] [] [])
        "foo" (fun _ => Except.error "x")).2
      = Except.error (PageError.usageError (bindingExistsMessage "foo"))
    ∧ (exposeFunction
        (PageState.mk false [("foo", fun _ => Except.ok JSONValue.null)] [] [])
        "foo" (fun _ => Except.error "x")).1
      = PageState.mk false [("foo", fun _ => Except.ok JSONValue.null)] [] []
    ∧ ((exposeFunction
        (PageState.mk false [("foo", fun _ => Except.ok JSONValue.null)] [] [])
        "foo" (fun _ => Except.error "x")).1)._pageBindings.lookup "foo"
      = some (fun _ => Except.ok JSONValue.null) :=
  exposeFunction_duplicate_fails
    (PageState.mk false [("foo", fun _ => Except.ok JSONValue.null)] [] [])
    "foo" (fun _ => Except.ok JSONValue.null) (fun _ => Except.error "x") rfl

/-- C6: when the file-chooser-opened notification arrives, if at least
one waitForFileChooser interceptor is pending, the oldest one (the head
of the FIFO list) resolves with a handle for the chooser and is removed
from the pending set; with no pending interceptor the notification is
dropped — the state is unchanged and nothing is emitted or rejected. -/
theorem fileChooser_fifo_and_drop (st : PageState) (chooser : Nat) :
    (st._fileChooserInterceptors = [] → onFileChooser st chooser = (st, none))
    ∧ (∀ i rest, st._fileChooserInterceptors = i :: rest →
        (onFileChooser st chooser).2 = some (i, chooser)
        ∧ ((onFileChooser st chooser).1)._fileChooserInterceptors = rest) := by
  constructor
  · intro h
    simp [onFileChooser, h]
  · intro i rest h
    simp [onFileChooser, h]

/-- Witness for C6: both cases, on a page with no pending interceptor
and on a page whose oldest pending interceptor is 7. -/
theorem fileChooser_fifo_and_drop_witness :
    onFileChooser (PageState.mk false [] [] []) 9 = (PageState.mk false [] [] [], none)
    ∧ (onFileChooser (PageState.mk false [] [7, 8] []) 9).2 = some (7, 9)
    ∧ ((onFileChooser (PageState.mk false [] [7, 8] []) 9).1)._fileChooserInterceptors
      = [8] :=
  ⟨(fileChooser_fifo_and_drop (PageState.mk false [] [] []) 9).1 rfl,
   ((fileChooser_fifo_and_drop (PageState.mk false [] [7, 8] []) 9).2 7 [8] rfl).1,
   ((fileChooser_fifo_and_drop (PageState.mk false [] [7, 8] []) 9).2 7 [8] rfl).2⟩

/-- C7: after exposeFunction registers `fn` under a fresh name, an
in-page invocation of that name with arguments `args` invokes `fn` with
exactly `args`, and the reply serialized back to the in-page caller is
exactly the awaited result of `fn args` — its return value, or its
error — so the in-page promise resolves or rejects with it. -/
theorem exposeFunction_round_trip (st : PageState) (name : String) (fn : Handler)
    (args : List JSONValue) (hfresh : st._pageBindings.lookup name = none) :
    onBindingCalled (exposeFunction st name fn).1 name args
      = some ⟨args, fn args⟩ := by
  have hns : (st._pageBindings.lookup name).isSome = false := by rw [hfresh]; rfl
  simp only [exposeFunction, hns, Bool.false_eq_true, if_false, onBindingCalled]
  rw [lookup_append_of_none _ _ _ hfresh]
  simp [List.lookup]

/-- Witness for C7: exposing foo and invoking it in-page with the
arguments 1 and 2 invokes the handler with (1, 2) and replies with the
handler's value. -/
theorem exposeFunction_round_trip_witness :
    onBindingCalled
      (exposeFunction (PageState.mk false [] [] []) "foo"
        (fun xs => Except.ok (JSONValue.arr xs))).1
      "foo" [JSONValue.num 1, JSONValue.num 2]
    = some ⟨[JSONValue.num 1, JSONValue.num 2],
        Except.ok (JSONValue.arr [JSONValue.num 1, JSONValue.num 2])⟩ :=
  exposeFunction_round_trip (PageState.mk false [] [] []) "foo"
    (fun xs => Except.ok (JSONValue.arr xs)) [JSONValue.num 1, JSONValue.num 2] rfl

/-- C8: for every selector matching no element, $eval rejects with the
element-not-found error instead of resolving with null or undefined. -/
theorem evalOnSelector_missing_rejects (dom : Dom) (selector : String)
    (fn : Nat → JSONValue) (h : querySelector dom selector = none) :
    pageEvalOnSelector dom selector fn
      = Except.error (PageError.elementNotFound selector) := by
  simp [pageEvalOnSelector, h]

/-- Witness for C8: $eval on the selector #missing in a document whose
only match is for #search. -/
theorem evalOnSelector_missing_rejects_witness :
    pageEvalOnSelector [("#search", 1)] "#missing" (fun el => JSONValue.num el)
      = Except.error (PageError.elementNotFound "#missing") :=
  evalOnSelector_missing_rejects [("#search", 1)] "#missing"
    (fun el => JSONValue.num el) rfl

/-- C9: goBack at the start of history — and symmetrically goForward at
the end — issues the history-navigation command first and then resolves
with the null result, rather than rejecting or remaining pending, since
no navigation actually occurs at a history boundary. -/
theorem go_boundary_resolves_null (hb hf : NavigationHistory)
    (h1 : hb.currentIndex = 0)
    (h2 : hf.entries.length ≤ hf.currentIndex + 1) :
    goBack hb = ([Command.navigateHistory (-1)], Except.ok none)
    ∧ goForward hf = ([Command.navigateHistory 1], Except.ok none) := by
  constructor
  · simp [goBack, go, h1]
  · have hnneg : ¬ ((hf.currentIndex : Int) + 1 < 0) := by omega
    have htn : ((hf.currentIndex : Int) + 1).toNat = hf.currentIndex + 1 := by omega
    simp [goForward, go, hnneg, htn, List.get?_eq_none, h2]

/-- Witness for C9: a two-entry history at index 0 for goBack and at
index 1 for goForward. -/
theorem go_boundary_resolves_null_witness :
    goBack (NavigationHistory.mk 0 [10, 11])
      = ([Command.navigateHistory (-1)], Except.ok none)
    ∧ goForward (NavigationHistory.mk 1 [10, 11])
      = ([Command.navigateHistory 1], Except.ok none) :=
  go_boundary_resolves_null (NavigationHistory.mk 0 [10, 11])
    (NavigationHistory.mk 1 [10, 11]) rfl (by decide)

/-- C10: for every selector matching no element, Page.$ resolves to
null (`Option.none`) — it neither rejects nor produces an undefined
value — in contrast with $eval, which rejects with the
element-not-found error on the same input. -/
theorem pageQuery_missing_resolves_null (dom : Dom) (selector : String)
    (fn : Nat → JSONValue) (h : querySelector dom selector = none) :
    pageQuery dom selector = Except.ok none
    ∧ pageEvalOnSelector dom selector fn
        = Except.error (PageError.elementNotFound selector) := by
  exact ⟨by simp [pageQuery, h], by simp [pageEvalOnSelector, h]⟩

/-- Witness for C10: querying #nothere in an empty document resolves to
null while $eval on the same document and selector rejects. -/
theorem pageQuery_missing_resolves_null_witness :
    pageQuery [] "#nothere" = Except.ok none
    ∧ pageEvalOnSelector [] "#nothere" (fun el => JSONValue.num el)
        = Except.error (PageError.elementNotFound "#nothere") :=
  pageQuery_missing_resolves_null [] "#nothere" (fun el => JSONValue.num el) rfl

end Puppeteer
